import Mathlib

/-!
Shallow embedding of the link-checker program (src/checker.py).

The pure string manipulation of the Python standard library that the program
relies on (scheme detection from urllib.parse.urlsplit, urllib.parse.urldefrag,
posixpath.dirname, posixpath.join, posixpath.splitext) is translated into Lean
functions.  The impure collaborators (the requests transport, the filesystem,
BeautifulSoup parsing) are modelled as an explicit environment Env: every
network or filesystem effect is a field of Env, exceptions raised by Python
code are modelled with Except, and every probe the checker performs is logged
into an explicit probe list so that claims about the absence of probes are
statable.  The two wide-open operations urljoin and os.path.realpath are
passed as function parameters, exactly as the program treats them: opaque
library calls whose output is used verbatim.
-/

/-- Split a character list at the first occurrence of c: if c occurs,
return the part before and the part after it. -/
def takeUntil (c : Char) : List Char → Option (List Char × List Char)
  | [] => none
  | x :: xs =>
    if x = c then some ([], xs)
    else
      match takeUntil c xs with
      | some (pre, post) => some (x :: pre, post)
      | none => none

/-- Characters allowed in a URL scheme after the first one
(urllib.parse.scheme_chars: letters, digits, plus, minus, dot). -/
def isSchemeChar (c : Char) : Bool :=
  c.isAlpha || c.isDigit || c == '+' || c == '-' || c == '.'

/-- A valid URL scheme: a letter followed by scheme characters (urlsplit). -/
def validScheme : List Char → Bool
  | [] => false
  | c :: rest => c.isAlpha && rest.all isSchemeChar

/-- The scheme of a URL per urllib.parse.urlsplit: the lowercased text before
the first colon when that text is a valid scheme, the empty string otherwise. -/
def urlScheme (s : String) : String :=
  match takeUntil ':' s.data with
  | some (pre, _) => if validScheme pre then ⟨pre.map Char.toLower⟩ else ""
  | none => ""

/-- Whether urlsplit(s)[0] is truthy, i.e. s carries a URL scheme. -/
def hasScheme (s : String) : Bool := urlScheme s ≠ ""

/-- urllib.parse.urldefrag: split at the first hash sign into base and
fragment; a string without a hash sign has fragment "". -/
def urldefrag (s : String) : String × String :=
  match takeUntil '#' s.data with
  | some (pre, post) => (⟨pre⟩, ⟨post⟩)
  | none => (s, "")

/-- Remove trailing occurrences of a character (str.rstrip with one char). -/
def dropTrailing (c : Char) (l : List Char) : List Char :=
  (l.reverse.dropWhile (fun x => x = c)).reverse

/-- posixpath.dirname: everything up to the last slash, with trailing slashes
stripped unless the result consists only of slashes. -/
def pyDirname (p : String) : String :=
  match takeUntil '/' p.data.reverse with
  | none => ""
  | some (_, restRev) =>
    let headPart := ('/' :: restRev).reverse
    if headPart.all (fun x => x = '/') then ⟨headPart⟩ else ⟨dropTrailing '/' headPart⟩

/-- posixpath.join on two components: an absolute second component replaces
the first, otherwise the components are glued with a slash unless the first
is empty or already ends in a slash. -/
def pyJoin2 (a b : String) : String :=
  if b.startsWith "/" then b
  else if a = "" || a.endsWith "/" then a ++ b
  else a ++ "/" ++ b

/-- Index of the last occurrence of a character in a list (str.rfind). -/
def lastIdxOf (c : Char) : List Char → Option Nat
  | [] => none
  | x :: xs =>
    match lastIdxOf c xs with
    | some i => some (i + 1)
    | none => if x = c then some 0 else none

/-- posixpath.splitext: split off the extension at the last dot, provided the
dot lies after the last slash and the basename does not consist of dots only
up to that position. -/
def pySplitext (p : String) : String × String :=
  let l := p.data
  match lastIdxOf '.' l with
  | none => (p, "")
  | some d =>
    let fi := match lastIdxOf '/' l with
      | none => 0
      | some si => si + 1
    if fi ≤ d then
      if ((l.drop fi).take (d - fi)).any (fun ch => ch ≠ '.') then
        (⟨l.take d⟩, ⟨l.drop d⟩)
      else (p, "")
    else (p, "")

/-- str.lower restricted to the ASCII mapping used by the program. -/
def pyLower (s : String) : String := ⟨s.data.map Char.toLower⟩

/-- rebase_link from src/checker.py: a link that carries a URL scheme is
resolved with urljoin against the base href; any other link is the realpath
of the join of the referrer's directory, the base href and the link.
urljoin and realpath are the library collaborators, passed as parameters. -/
def rebase_link (urljoin : String → String → String) (realpath : String → String)
    (lnk baseurl referrer_path : String) : String :=
  if hasScheme lnk then urljoin baseurl lnk
  else realpath (pyJoin2 (pyJoin2 (pyDirname referrer_path) baseurl) lnk)

/-- A parsed HTML document (the BeautifulSoup collaborator), reduced to the
query results the program asks of it: id attributes, name attributes, the
href of the first base element if any, and the href/src candidate links in
document order. -/
structure Soup where
  ids : List String
  names : List String
  baseHref : Option String
  hrefs : List String
  srcs : List String

/-- anchor_in_soup: an anchor is present when some element has the given id
or some element has the given name. -/
def anchor_in_soup (soup : Soup) (anchor_name : String) : Bool :=
  soup.ids.contains anchor_name || soup.names.contains anchor_name

/-- First-occurrence deduplication with an accumulator of already seen
strings; stands in for the Python set comprehension in links_in_soup
(Python set iteration order is unspecified; this picks first-occurrence
order as the deterministic representative). -/
def dedupAux (seen : List String) : List String → List String
  | [] => []
  | x :: xs => if x ∈ seen then dedupAux seen xs else x :: dedupAux (x :: seen) xs

/-- links_in_soup: the base href (empty when absent), then every href of
anchor-like and link-like elements and every src of image-like and
script-like elements, each rebased, collected as a set. -/
def links_in_soup (urljoin : String → String → String) (realpath : String → String)
    (soup : Soup) (referrer : String) : List String :=
  let baseurl := soup.baseHref.getD ""
  dedupAux [] ((soup.hrefs ++ soup.srcs).map (fun lnk => rebase_link urljoin realpath lnk baseurl referrer))

/-- The impure collaborators of the checker.  Except models a raised Python
exception; the Bool of head and get is the requests ok flag; get's payload is
the already parsed body. -/
structure Env where
  head : String → Except String Bool
  get : String → Except String (Bool × Soup)
  pathExists : String → Bool
  readFile : String → Except String Soup
  isDir : String → Bool
  isFile : String → Bool
  walkFiles : String → List String

/-- One observable network or filesystem probe. -/
inductive Probe where
  | head (url : String)
  | get (url : String)
  | stat (path : String)
  | read (path : String)
deriving DecidableEq

/-- A Python-level abnormal exit: an uncaught exception or sys.exit. -/
inductive PyErr where
  | exc (msg : String)
  | exit (code : Nat)
deriving DecidableEq

/-- test_http_head: HEAD the link and report the ok flag; every exception is
caught and converted to False (the bare except in the source). -/
def test_http_head (env : Env) (link : String) : Bool :=
  match env.head link with
  | Except.ok b => b
  | Except.error _ => false

/-- The mutable state of a LinkChecker instance. -/
structure CheckerState where
  soup_mapping : List (String × Soup)
  seen_links : List (String × Bool)
  link_cnt : Nat
  fail_cnt : Nat
  fail_map : List (String × List String)
  test_local : Bool
  test_external : Bool
  ignores : List (String → Bool)

/-- Python dict lookup on an association list. -/
def lookupA {β : Type} : List (String × β) → String → Option β
  | [], _ => none
  | (k', v') :: rest, k => if k' = k then some v' else lookupA rest k

/-- Python dict assignment on an association list: replace in place when the
key is present, append otherwise (insertion order preserved, as in dict). -/
def insertA {β : Type} : List (String × β) → String → β → List (String × β)
  | [], k, v => [(k, v)]
  | (k', v') :: rest, k, v =>
    if k' = k then (k, v) :: rest else (k', v') :: insertA rest k v

/-- fail_map.setdefault(ctx, []).append(link). -/
def appendFail : List (String × List String) → String → String → List (String × List String)
  | [], ctx, link => [(ctx, [link])]
  | (k, v) :: rest, ctx, link =>
    if k = ctx then (k, v ++ [link]) :: rest else (k, v) :: appendFail rest ctx link

/-- LinkChecker.__init__: empty caches, zero counters, the configuration
flags, and the compiled ignore matchers (regex compilation is the re module
collaborator, so the matchers are taken as given predicates). -/
def mkChecker (local_flag external_flag : Bool) (ignores : List (String → Bool)) : CheckerState :=
  { soup_mapping := [], seen_links := [], link_cnt := 0, fail_cnt := 0,
    fail_map := [], test_local := local_flag, test_external := external_flag,
    ignores := ignores }

namespace LinkChecker

/-- self.seen_links[link] = ret. -/
def writeSeen (s : CheckerState) (link : String) (ret : Bool) : CheckerState :=
  { s with seen_links := insertA s.seen_links link ret }

/-- self.soup_mapping[key] = soup. -/
def writeSoup (s : CheckerState) (key : String) (soup : Soup) : CheckerState :=
  { s with soup_mapping := insertA s.soup_mapping key soup }

/-- self.link_cnt += 1. -/
def bumpLink (s : CheckerState) : CheckerState :=
  { s with link_cnt := s.link_cnt + 1 }

/-- self.fail_cnt += 1 together with the fail_map append. -/
def recordFail (s : CheckerState) (ctx link : String) : CheckerState :=
  { s with fail_cnt := s.fail_cnt + 1, fail_map := appendFail s.fail_map ctx link }

/-- _test_http_fragment: reuse the cached soup when present; otherwise GET
the link (any exception caught, converted to False), require response.ok,
parse and cache the body; finally look for the anchor. -/
def _test_http_fragment (env : Env) (s : CheckerState) (link fragment : String) :
    Bool × CheckerState × List Probe :=
  match lookupA s.soup_mapping link with
  | some soup => (anchor_in_soup soup fragment, s, [])
  | none =>
    match env.get link with
    | Except.error _ => (false, s, [Probe.get link])
    | Except.ok (ok, soup) =>
      if ok then (anchor_in_soup soup fragment, writeSoup s link soup, [Probe.get link])
      else (false, s, [Probe.get link])

/-- _test_file_fragment: reuse the cached soup when present; otherwise a
missing file is False without a read; an existing file is opened and parsed,
and a raised read error propagates (there is no try around the open). -/
def _test_file_fragment (env : Env) (s : CheckerState) (fname fragment : String) :
    Except String (Bool × CheckerState × List Probe) :=
  match lookupA s.soup_mapping fname with
  | some soup => Except.ok (anchor_in_soup soup fragment, s, [])
  | none =>
    if env.pathExists fname then
      match env.readFile fname with
      | Except.error e => Except.error e
      | Except.ok soup =>
        Except.ok (anchor_in_soup soup fragment, writeSoup s fname soup,
          [Probe.stat fname, Probe.read fname])
    else Except.ok (false, s, [Probe.stat fname])

/-- _test_link: the memoized resolution of one link.  A cached link returns
its cached value; an uncached link whose defragmented base is cached False
short-circuits to False; otherwise the remote or local, fragment or whole
resource probe runs and the result is written back under the full link. -/
def _test_link (env : Env) (s : CheckerState) (link : String) (external : Bool) :
    Except PyErr (Bool × CheckerState × List Probe) :=
  match lookupA s.seen_links link with
  | some v => Except.ok (v, s, [])
  | none =>
    if lookupA s.seen_links (urldefrag link).1 = some false then
      Except.ok (false, s, [])
    else
      if external then
        if (urldefrag link).2 ≠ "" then
          let r := _test_http_fragment env s (urldefrag link).1 (urldefrag link).2
          Except.ok (r.1, writeSeen r.2.1 link r.1, r.2.2)
        else
          Except.ok (test_http_head env link, writeSeen s link (test_http_head env link),
            [Probe.head link])
      else
        if (urldefrag link).2 ≠ "" then
          match _test_file_fragment env s (urldefrag link).1 (urldefrag link).2 with
          | Except.error e => Except.error (PyErr.exc e)
          | Except.ok (ret, s2, ps) => Except.ok (ret, writeSeen s2 link ret, ps)
        else
          Except.ok (env.pathExists link, writeSeen s link (env.pathExists link),
            [Probe.stat link])

/-- The disjunction of the three filters at the top of test_link: remote
link with remote checking disabled, local link with local checking disabled,
or an ignore pattern that matches. -/
def skips (s : CheckerState) (link : String) : Bool :=
  (hasScheme link && !s.test_external) || (!(hasScheme link) && !s.test_local) ||
    s.ignores.any (fun rex => rex link)

/-- test_link: apply the three filters (a filtered link returns True and
touches nothing); otherwise count the check, resolve the link, and on a
False resolution count the failure and record it under ctx.  The returned
Option Bool is the Python return value (True when filtered, None after a
counted check). -/
def test_link (env : Env) (s : CheckerState) (link ctx : String) :
    Except PyErr (Option Bool × CheckerState × List Probe) :=
  if hasScheme link && !s.test_external then Except.ok (some true, s, [])
  else if !(hasScheme link) && !s.test_local then Except.ok (some true, s, [])
  else if s.ignores.any (fun rex => rex link) then Except.ok (some true, s, [])
  else
    match _test_link env (bumpLink s) link (hasScheme link) with
    | Except.error e => Except.error e
    | Except.ok (ret, s2, ps) =>
      if ret then Except.ok (none, s2, ps)
      else Except.ok (none, recordFail s2 ctx link, ps)

/-- The loop body of test_file's progress bar: test each extracted link in
turn against the file as context, accumulating the probe log. -/
def run_links (env : Env) : CheckerState → List String → String →
    Except PyErr (CheckerState × List Probe)
  | s, [], _ => Except.ok (s, [])
  | s, lnk :: rest, fname =>
    match test_link env s lnk fname with
    | Except.error e => Except.error e
    | Except.ok (_, s', ps) =>
      match run_links env s' rest fname with
      | Except.error e => Except.error e
      | Except.ok (s'', ps') => Except.ok (s'', ps ++ ps')

/-- test_file: load (or reuse) the soup of the file, extract its link set,
and test every link.  The open is not guarded, so a read failure raises. -/
def test_file (env : Env) (urljoin : String → String → String) (realpath : String → String)
    (s : CheckerState) (fname : String) : Except PyErr (CheckerState × List Probe) :=
  match lookupA s.soup_mapping fname with
  | some soup => run_links env s (links_in_soup urljoin realpath soup fname) fname
  | none =>
    match env.readFile fname with
    | Except.error e => Except.error (PyErr.exc e)
    | Except.ok soup =>
      match run_links env (writeSoup s fname soup)
          (links_in_soup urljoin realpath soup fname) fname with
      | Except.error e => Except.error e
      | Except.ok (s', ps) => Except.ok (s', Probe.read fname :: ps)

/-- html_files_for_dir: the files of the recursive walk whose lowercased
extension is .html or .htm. -/
def html_files_for_dir (env : Env) (pth : String) : List String :=
  (env.walkFiles pth).filter
    (fun f => pyLower (pySplitext f).2 = ".html" || pyLower (pySplitext f).2 = ".htm")

/-- The loop of test_dir over the enumerated HTML files. -/
def run_files (env : Env) (urljoin : String → String → String) (realpath : String → String) :
    CheckerState → List String → Except PyErr (CheckerState × List Probe)
  | s, [] => Except.ok (s, [])
  | s, f :: rest =>
    match test_file env urljoin realpath s f with
    | Except.error e => Except.error e
    | Except.ok (s', ps) =>
      match run_files env urljoin realpath s' rest with
      | Except.error e => Except.error e
      | Except.ok (s'', ps') => Except.ok (s'', ps ++ ps')

/-- test_dir: test every HTML file below the directory. -/
def test_dir (env : Env) (urljoin : String → String → String) (realpath : String → String)
    (s : CheckerState) (pth : String) : Except PyErr (CheckerState × List Probe) :=
  run_files env urljoin realpath s (html_files_for_dir env pth)

/-- test_items: a directory is walked, a file is tested directly, any other
item that carries a URL scheme is tested as a bare link with the defragmented
item as context, and anything else is a fatal usage error (sys.exit(2)). -/
def test_items (env : Env) (urljoin : String → String → String) (realpath : String → String) :
    CheckerState → List String → Except PyErr (CheckerState × List Probe)
  | s, [] => Except.ok (s, [])
  | s, item :: rest =>
    if env.isDir item then
      match test_dir env urljoin realpath s item with
      | Except.error e => Except.error e
      | Except.ok (s', ps) =>
        match test_items env urljoin realpath s' rest with
        | Except.error e => Except.error e
        | Except.ok (s'', ps') => Except.ok (s'', ps ++ ps')
    else if env.isFile item then
      match test_file env urljoin realpath s item with
      | Except.error e => Except.error e
      | Except.ok (s', ps) =>
        match test_items env urljoin realpath s' rest with
        | Except.error e => Except.error e
        | Except.ok (s'', ps') => Except.ok (s'', ps ++ ps')
    else if hasScheme item then
      match test_link env s item (urldefrag item).1 with
      | Except.error e => Except.error e
      | Except.ok (_, s', ps) =>
        match test_items env urljoin realpath s' rest with
        | Except.error e => Except.error e
        | Except.ok (s'', ps') => Except.ok (s'', ps ++ ps')
    else Except.error (PyErr.exit 2)

/-- get_stats: checks performed, failures, distinct cached targets. -/
def get_stats (s : CheckerState) : Nat × Nat × Nat :=
  (s.link_cnt, s.fail_cnt, s.seen_links.length)

end LinkChecker

/-! Concrete environments and states used to instantiate the theorems. -/

/-- An empty parsed document. -/
def soup0 : Soup := ⟨[], [], none, [], []⟩

/-- A urljoin stand-in for instantiations. -/
def uj0 : String → String → String := fun b l => b ++ l

/-- A realpath stand-in for instantiations. -/
def rp0 : String → String := fun p => p

/-- An environment whose probes all succeed. -/
def envExists : Env :=
  { head := fun _ => Except.ok true, get := fun _ => Except.ok (true, soup0),
    pathExists := fun _ => true, readFile := fun _ => Except.ok soup0,
    isDir := fun _ => false, isFile := fun _ => false, walkFiles := fun _ => [] }

/-- An environment whose GET always yields a non-success response and whose
items are neither directories nor files. -/
def envDeadGet : Env :=
  { head := fun _ => Except.ok true, get := fun _ => Except.ok (false, soup0),
    pathExists := fun _ => false, readFile := fun _ => Except.error "unreadable",
    isDir := fun _ => false, isFile := fun _ => false, walkFiles := fun _ => [] }

/-- An environment where every file exists but reading it raises. -/
def envUnreadable : Env :=
  { head := fun _ => Except.ok true, get := fun _ => Except.ok (true, soup0),
    pathExists := fun _ => true, readFile := fun _ => Except.error "unreadable",
    isDir := fun _ => false, isFile := fun _ => false, walkFiles := fun _ => [] }

/-- An environment where exactly the file f.html exists. -/
def envHtml : Env :=
  { head := fun _ => Except.ok true, get := fun _ => Except.ok (true, soup0),
    pathExists := fun p => p == "f.html", readFile := fun _ => Except.ok soup0,
    isDir := fun _ => false, isFile := fun _ => false, walkFiles := fun _ => [] }

/-- An environment whose transport raises on every HEAD and GET and where no
file exists. -/
def envNetErr : Env :=
  { head := fun _ => Except.error "timeout", get := fun _ => Except.error "timeout",
    pathExists := fun _ => false, readFile := fun _ => Except.ok soup0,
    isDir := fun _ => false, isFile := fun _ => false, walkFiles := fun _ => [] }

/-- A fresh checker with both kinds of checking enabled and no ignores. -/
def s0 : CheckerState := mkChecker true true []

/-- A checker whose resolution cache maps the base X to False. -/
def sDead : CheckerState :=
  { soup_mapping := [], seen_links := [("X", false)], link_cnt := 0, fail_cnt := 0,
    fail_map := [], test_local := true, test_external := true, ignores := [] }

/-- A checker with an ignore pattern that matches everything. -/
def sIgn : CheckerState := mkChecker true true [fun _ => true]

/-- The remote load of a base document fails: the GET raises or returns a
non-success response. -/
def loadFailR (env : Env) (base : String) : Prop :=
  (∃ e, env.get base = Except.error e) ∨ (∃ soup, env.get base = Except.ok (false, soup))

/-- The state after scanning the one bare item http://h#frag against
envDeadGet. -/
def st9 : CheckerState :=
  { soup_mapping := [], seen_links := [("http://h#frag", false)], link_cnt := 1, fail_cnt := 1,
    fail_map := [("http://h", ["http://h#frag"])], test_local := true, test_external := true,
    ignores := [] }

/-! Helper lemmas about the association-list dictionaries and the case
structure of the resolver. -/

theorem lookupA_insertA {β : Type} (m : List (String × β)) (k : String) (v : β) :
    lookupA (insertA m k v) k = some v := by
  induction m with
  | nil => simp [insertA, lookupA]
  | cons hd tl ih =>
    obtain ⟨k', v'⟩ := hd
    by_cases hk : k' = k
    · subst hk; simp [insertA, lookupA]
    · simp [insertA, lookupA, hk, ih]

theorem takeUntil_append_last (c : Char) (l : List Char) (h : c ∉ l) :
    takeUntil c (l ++ [c]) = some (l, []) := by
  induction l with
  | nil => simp [takeUntil]
  | cons x xs ih =>
    have hx : ¬ x = c := fun e => h (by simp [e])
    have hxs : c ∉ xs := fun m => h (List.mem_cons_of_mem _ m)
    simp [takeUntil, hx, ih hxs]

theorem urldefrag_append_hash (X : String) (h : '#' ∉ X.data) :
    urldefrag (X ++ "#") = (X, "") := by
  unfold urldefrag
  rw [String.data_append]
  have hd : ("#" : String).data = ['#'] := rfl
  rw [hd, takeUntil_append_last '#' X.data h]

theorem http_frag_state (env : Env) (s : CheckerState) (l f : String) :
    (LinkChecker._test_http_fragment env s l f).2.1 = s ∨
      ∃ soup, (LinkChecker._test_http_fragment env s l f).2.1 = LinkChecker.writeSoup s l soup := by
  unfold LinkChecker._test_http_fragment
  split
  · left; rfl
  · split
    · left; rfl
    · split
      · right; exact ⟨_, rfl⟩
      · left; rfl

theorem file_frag_state {env : Env} {s : CheckerState} {l f : String} {r : Bool}
    {t : CheckerState} {ps : List Probe}
    (h : LinkChecker._test_file_fragment env s l f = Except.ok (r, t, ps)) :
    t = s ∨ ∃ soup, t = LinkChecker.writeSoup s l soup := by
  unfold LinkChecker._test_file_fragment at h
  split at h
  · simp only [Except.ok.injEq, Prod.mk.injEq] at h
    left; exact h.2.1.symm
  · split at h
    · split at h
      · exact absurd h (by simp)
      · simp only [Except.ok.injEq, Prod.mk.injEq] at h
        right; exact ⟨_, h.2.1.symm⟩
    · simp only [Except.ok.injEq, Prod.mk.injEq] at h
      left; exact h.2.1.symm

theorem ttl_of_cached {env : Env} {s : CheckerState} {link : String} {ext : Bool} {b : Bool}
    (h : lookupA s.seen_links link = some b) :
    LinkChecker._test_link env s link ext = Except.ok (b, s, []) := by
  unfold LinkChecker._test_link
  rw [h]

theorem ttl_cases {env : Env} {s : CheckerState} {link : String} {ext b : Bool}
    {s' : CheckerState} {ps : List Probe}
    (h : LinkChecker._test_link env s link ext = Except.ok (b, s', ps)) :
    (lookupA s.seen_links link = some b ∧ s' = s ∧ ps = []) ∨
    (lookupA s.seen_links link = none ∧ lookupA s.seen_links (urldefrag link).1 = some false ∧
      b = false ∧ s' = s ∧ ps = []) ∨
    (lookupA s.seen_links link = none ∧
      ¬ lookupA s.seen_links (urldefrag link).1 = some false ∧
      ∃ t, s' = LinkChecker.writeSeen t link b ∧
        (t = s ∨ ∃ key soup, t = LinkChecker.writeSoup s key soup)) := by
  unfold LinkChecker._test_link at h
  cases hl : lookupA s.seen_links link with
  | some v =>
    rw [hl] at h
    simp only [Except.ok.injEq, Prod.mk.injEq] at h
    left
    exact ⟨by rw [h.1], h.2.1.symm, h.2.2.symm⟩
  | none =>
    rw [hl] at h
    by_cases hb : lookupA s.seen_links (urldefrag link).1 = some false
    · rw [if_pos hb] at h
      simp only [Except.ok.injEq, Prod.mk.injEq] at h
      right; left
      exact ⟨rfl, hb, h.1.symm, h.2.1.symm, h.2.2.symm⟩
    · rw [if_neg hb] at h
      right; right
      refine ⟨rfl, hb, ?_⟩
      cases ext with
      | true =>
        rw [if_pos rfl] at h
        by_cases hf : (urldefrag link).2 ≠ ""
        · rw [if_pos hf] at h
          simp only [Except.ok.injEq, Prod.mk.injEq] at h
          rcases http_frag_state env s (urldefrag link).1 (urldefrag link).2 with ht | ⟨soup, ht⟩
          · exact ⟨_, by rw [← h.2.1, ← h.1], Or.inl ht⟩
          · exact ⟨_, by rw [← h.2.1, ← h.1], Or.inr ⟨_, _, ht⟩⟩
        · rw [if_neg hf] at h
          simp only [Except.ok.injEq, Prod.mk.injEq] at h
          exact ⟨s, by rw [← h.2.1, ← h.1], Or.inl rfl⟩
      | false =>
        rw [if_neg (by simp)] at h
        by_cases hf : (urldefrag link).2 ≠ ""
        · rw [if_pos hf] at h
          cases hff : LinkChecker._test_file_fragment env s (urldefrag link).1 (urldefrag link).2 with
          | error e => rw [hff] at h; exact absurd h (by simp)
          | ok trip =>
            obtain ⟨ret, t, ps0⟩ := trip
            rw [hff] at h
            simp only [Except.ok.injEq, Prod.mk.injEq] at h
            refine ⟨t, by rw [← h.2.1, ← h.1], ?_⟩
            rcases file_frag_state hff with ht | ⟨soup, ht⟩
            · exact Or.inl ht
            · exact Or.inr ⟨_, _, ht⟩
        · rw [if_neg hf] at h
          simp only [Except.ok.injEq, Prod.mk.injEq] at h
          exact ⟨s, by rw [← h.2.1, ← h.1], Or.inl rfl⟩

theorem ttl_counts {env : Env} {s : CheckerState} {link : String} {ext b : Bool}
    {s' : CheckerState} {ps : List Probe}
    (h : LinkChecker._test_link env s link ext = Except.ok (b, s', ps)) :
    s'.link_cnt = s.link_cnt ∧ s'.fail_cnt = s.fail_cnt ∧ s'.fail_map = s.fail_map := by
  rcases ttl_cases h with ⟨_, rfl, _⟩ | ⟨_, _, _, rfl, _⟩ |
    ⟨_, _, t, rfl, rfl | ⟨key, soup, rfl⟩⟩
  · exact ⟨rfl, rfl, rfl⟩
  · exact ⟨rfl, rfl, rfl⟩
  · exact ⟨rfl, rfl, rfl⟩
  · simp [LinkChecker.writeSeen, LinkChecker.writeSoup]

/-! Claim theorems. -/

/-- C1: Fragment short-circuit: when a target of the form X#frag with a
non-empty fragment is not yet cached but its fragmentless base X is cached
False, _test_link returns False with an empty probe log and an unchanged
state, i.e. without any network or filesystem probe. -/
theorem c1_fragment_short_circuit (env : Env) (s : CheckerState) (t : String) (ext : Bool)
    (_hfrag : (urldefrag t).2 ≠ "")
    (hmiss : lookupA s.seen_links t = none)
    (hdead : lookupA s.seen_links (urldefrag t).1 = some false) :
    LinkChecker._test_link env s t ext = Except.ok (false, s, []) := by
  unfold LinkChecker._test_link
  rw [hmiss, if_pos hdead]

/-- C1 witness: the concrete short-circuit of X#frag against a cache that
maps X to False. -/
theorem c1_witness :
    (urldefrag "X#frag").2 ≠ "" ∧
    LinkChecker._test_link envExists sDead "X#frag" true = Except.ok (false, sDead, []) :=
  ⟨by decide, c1_fragment_short_circuit envExists sDead "X#frag" true (by decide) (by decide)
    (by decide)⟩

/-- C2 counterexample: the dead-base short-circuit branch returns without
inserting the target into the resolution cache, so after the call resolves
X#frag to False the cache does not map X#frag to False. -/
theorem c2_counterexample :
    LinkChecker._test_link envExists sDead "X#frag" true = Except.ok (false, sDead, []) ∧
    ¬ lookupA sDead.seen_links "X#frag" = some false := ⟨rfl, by decide⟩

/-- C2 amended: after a returning call of _test_link the cache maps the full
target to the returned Boolean, except in the dead-base short-circuit branch,
which returns False and leaves the state (hence the cache and its entry
count, the unique statistic) unchanged, the target not inserted. -/
theorem c2_writeback_amended {env : Env} {s : CheckerState} {link : String} {ext b : Bool}
    {s' : CheckerState} {ps : List Probe}
    (h : LinkChecker._test_link env s link ext = Except.ok (b, s', ps)) :
    lookupA s'.seen_links link = some b ∨
    (b = false ∧ s' = s ∧ lookupA s.seen_links link = none ∧
      lookupA s.seen_links (urldefrag link).1 = some false ∧ ps = []) := by
  rcases ttl_cases h with ⟨hc, rfl, _⟩ | ⟨h1, h2, rfl, rfl, rfl⟩ | ⟨_, _, t, rfl, _⟩
  · exact Or.inl hc
  · exact Or.inr ⟨rfl, rfl, h1, h2, rfl⟩
  · exact Or.inl (by simp [LinkChecker.writeSeen, lookupA_insertA])

/-- A concrete first resolution: the fresh local target a is probed with a
stat and written back as reachable. -/
theorem first_call_concrete :
    LinkChecker._test_link envExists s0 "a" false =
      Except.ok (true, LinkChecker.writeSeen s0 "a" true, [Probe.stat "a"]) := rfl

/-- C2 witness: the write-back disjunct at a concrete resolved target. -/
theorem c2_witness :
    lookupA (LinkChecker.writeSeen s0 "a" true).seen_links "a" = some true ∨
    (true = false ∧ LinkChecker.writeSeen s0 "a" true = s0 ∧
      lookupA s0.seen_links "a" = none ∧
      lookupA s0.seen_links (urldefrag "a").1 = some false ∧
      [Probe.stat "a"] = ([] : List Probe)) :=
  c2_writeback_amended first_call_concrete

/-- C3: Rebase correctness: a link that carries a URL scheme rebases to
urljoin of the base href and the link, independently of the referrer; a link
without a scheme (whatever the base href, scheme or not) rebases to the
realpath of the join of the referrer's directory, the base href and the
link. -/
theorem c3_rebase_correctness (urljoin : String → String → String)
    (realpath : String → String) (lnk baseurl referrer referrer' : String) :
    (hasScheme lnk = true →
      rebase_link urljoin realpath lnk baseurl referrer = urljoin baseurl lnk ∧
      rebase_link urljoin realpath lnk baseurl referrer =
        rebase_link urljoin realpath lnk baseurl referrer') ∧
    (hasScheme lnk = false →
      rebase_link urljoin realpath lnk baseurl referrer =
        realpath (pyJoin2 (pyJoin2 (pyDirname referrer) baseurl) lnk)) := by
  constructor
  · intro h
    constructor <;> simp [rebase_link, h]
  · intro h
    simp [rebase_link, h]

/-- C3 witness: both branches at concrete links, one with a scheme and one
without, under concrete urljoin and realpath stand-ins. -/
theorem c3_witness :
    (rebase_link uj0 rp0 "https://docs.rs/regex/" "../" "d/r.html" =
        uj0 "../" "https://docs.rs/regex/" ∧
      rebase_link uj0 rp0 "https://docs.rs/regex/" "../" "d/r.html" =
        rebase_link uj0 rp0 "https://docs.rs/regex/" "../" "other/x.html") ∧
    rebase_link uj0 rp0 "about.html" "../" "d/r.html" =
      rp0 (pyJoin2 (pyJoin2 (pyDirname "d/r.html") "../") "about.html") :=
  ⟨(c3_rebase_correctness uj0 rp0 "https://docs.rs/regex/" "../" "d/r.html"
      "other/x.html").1 (by decide),
    (c3_rebase_correctness uj0 rp0 "about.html" "../" "d/r.html" "d/r.html").2 (by decide)⟩

/-- C4: Cache idempotence: when a resolution of a link returns a Boolean,
resolving the identical link again from the resulting state performs no
probe at all, changes nothing, and returns the identical Boolean. -/
theorem c4_cache_idempotence {env : Env} {s : CheckerState} {link : String} {ext b : Bool}
    {s' : CheckerState} {ps : List Probe}
    (h : LinkChecker._test_link env s link ext = Except.ok (b, s', ps)) :
    LinkChecker._test_link env s' link ext = Except.ok (b, s', []) := by
  rcases ttl_cases h with ⟨hc, rfl, _⟩ | ⟨h1, h2, rfl, rfl, _⟩ | ⟨_, _, t, rfl, _⟩
  · exact ttl_of_cached hc
  · unfold LinkChecker._test_link
    rw [h1, if_pos h2]
  · exact ttl_of_cached (by simp [LinkChecker.writeSeen, lookupA_insertA])

/-- C4 witness: the second resolution of the concrete target a returns the
cached True with an empty probe log. -/
theorem c4_witness :
    LinkChecker._test_link envExists (LinkChecker.writeSeen s0 "a" true) "a" false =
      Except.ok (true, LinkChecker.writeSeen s0 "a" true, []) :=
  c4_cache_idempotence first_call_concrete

/-- C5: Counting semantics: a filtered link returns True and leaves the
state untouched (neither counter changes, nothing is probed or recorded); a
non-filtered link whose resolution returns increments link_cnt by exactly
one, increments fail_cnt by exactly one precisely when the resolution is
False, and appends to the fail map exactly then. -/
theorem c5_counting (env : Env) (s : CheckerState) (link ctx : String) :
    (LinkChecker.skips s link = true →
      LinkChecker.test_link env s link ctx = Except.ok (some true, s, [])) ∧
    (LinkChecker.skips s link = false →
      ∀ b s2 ps,
        LinkChecker._test_link env (LinkChecker.bumpLink s) link (hasScheme link) =
          Except.ok (b, s2, ps) →
        ∃ s', LinkChecker.test_link env s link ctx = Except.ok (none, s', ps) ∧
          s'.link_cnt = s.link_cnt + 1 ∧
          s'.fail_cnt = s.fail_cnt + (if b then 0 else 1) ∧
          (if b then s'.fail_map = s.fail_map
            else s'.fail_map = appendFail s.fail_map ctx link)) := by
  constructor
  · intro hsk
    unfold LinkChecker.test_link
    by_cases g1 : (hasScheme link && !s.test_external) = true
    · rw [if_pos g1]
    · rw [if_neg g1]
      by_cases g2 : (!(hasScheme link) && !s.test_local) = true
      · rw [if_pos g2]
      · rw [if_neg g2]
        have g3 : s.ignores.any (fun rex => rex link) = true := by
          unfold LinkChecker.skips at hsk
          simp only [Bool.or_eq_true] at hsk
          rcases hsk with (h' | h') | h
          · exact absurd h' g1
          · exact absurd h' g2
          · exact h
        rw [if_pos g3]
  · intro hsk b s2 ps h
    have hg := hsk
    unfold LinkChecker.skips at hg
    simp only [Bool.or_eq_false_iff] at hg
    obtain ⟨⟨g1, g2⟩, g3⟩ := hg
    have hcnt := ttl_counts h
    refine ⟨if b then s2 else LinkChecker.recordFail s2 ctx link, ?_, ?_, ?_, ?_⟩
    · unfold LinkChecker.test_link
      rw [if_neg (by rw [g1]; simp), if_neg (by rw [g2]; simp), if_neg (by rw [g3]; simp), h]
      cases b <;> simp
    · cases b <;> simp [LinkChecker.recordFail, hcnt.1, LinkChecker.bumpLink]
    · cases b <;> simp [LinkChecker.recordFail, hcnt.2.1, LinkChecker.bumpLink]
    · cases b <;> simp [LinkChecker.recordFail, hcnt.2.2, LinkChecker.bumpLink]

/-- C5 witness: the non-filtered concrete target a is counted once and, as
its resolution is True, fails nothing. -/
theorem c5_witness :
    ∃ s', LinkChecker.test_link envExists s0 "a" "src.html" = Except.ok (none, s', [Probe.stat "a"]) ∧
      s'.link_cnt = s0.link_cnt + 1 ∧
      s'.fail_cnt = s0.fail_cnt + (if true then 0 else 1) ∧
      (if true then s'.fail_map = s0.fail_map
        else s'.fail_map = appendFail s0.fail_map "src.html" "a") :=
  (c5_counting envExists s0 "a" "src.html").2 (by decide) true
    (LinkChecker.writeSeen (LinkChecker.bumpLink s0) "a" true) [Probe.stat "a"] rfl

/-- C6 counterexample: a local fragment check of an existing but unreadable
file raises out of _test_link instead of resolving to False: the open is
outside any try block, refuting that every filesystem error is absorbed. -/
theorem c6_counterexample :
    LinkChecker._test_link envUnreadable s0 "f#a" false =
      Except.error (PyErr.exc "unreadable") := rfl

/-- C6 amended: for an uncached, non-short-circuited target, every network
error is caught and converted to False: a raised HEAD exception makes
test_http_head return False, a failed HEAD (exception or non-success)
resolves a fragmentless remote target to False, a failed GET (exception or
non-success response) resolves a fragmented remote target to False, and a
missing local file resolves to False with a stat and no read, both with and
without a fragment; every remote resolution returns a Boolean from any
state; and the only way _test_link can propagate an exception is the
unguarded read of an existing local file during a fragment check. -/
theorem c6_error_absorption_amended (env : Env) (s : CheckerState) (link : String)
    (hmiss : lookupA s.seen_links link = none)
    (hbase : ¬ lookupA s.seen_links (urldefrag link).1 = some false) :
    (∀ e, env.head link = Except.error e → test_http_head env link = false) ∧
    (test_http_head env link = false → (urldefrag link).2 = "" →
      LinkChecker._test_link env s link true =
        Except.ok (false, LinkChecker.writeSeen s link false, [Probe.head link])) ∧
    ((urldefrag link).2 ≠ "" → lookupA s.soup_mapping (urldefrag link).1 = none →
      loadFailR env (urldefrag link).1 →
      LinkChecker._test_link env s link true =
        Except.ok (false, LinkChecker.writeSeen s link false,
          [Probe.get (urldefrag link).1])) ∧
    ((urldefrag link).2 ≠ "" → lookupA s.soup_mapping (urldefrag link).1 = none →
      env.pathExists (urldefrag link).1 = false →
      LinkChecker._test_link env s link false =
        Except.ok (false, LinkChecker.writeSeen s link false,
          [Probe.stat (urldefrag link).1])) ∧
    ((urldefrag link).2 = "" → env.pathExists link = false →
      LinkChecker._test_link env s link false =
        Except.ok (false, LinkChecker.writeSeen s link false, [Probe.stat link])) ∧
    (∀ s' : CheckerState, ∃ r, LinkChecker._test_link env s' link true = Except.ok r) ∧
    (∀ ext e, LinkChecker._test_link env s link ext = Except.error e →
      ext = false ∧ (urldefrag link).2 ≠ "" ∧
      env.pathExists (urldefrag link).1 = true ∧
      lookupA s.soup_mapping (urldefrag link).1 = none ∧
      ∃ msg, e = PyErr.exc msg ∧ env.readFile (urldefrag link).1 = Except.error msg) := by
  refine ⟨?_, ?_, ?_, ?_, ?_, ?_, ?_⟩
  · intro e he
    unfold test_http_head
    rw [he]
  · intro hhf hfe
    unfold LinkChecker._test_link
    rw [hmiss, if_neg hbase, if_pos rfl, if_neg (by simp [hfe]), hhf]
  · intro hf hsoup hlf
    unfold LinkChecker._test_link
    rw [hmiss, if_neg hbase, if_pos rfl, if_pos hf]
    unfold LinkChecker._test_http_fragment
    rw [hsoup]
    rcases hlf with ⟨e, hge⟩ | ⟨soup, hgo⟩
    · rw [hge]
    · rw [hgo]
      simp
  · intro hf hsoup hpe
    unfold LinkChecker._test_link
    rw [hmiss, if_neg hbase, if_neg (by simp), if_pos hf]
    unfold LinkChecker._test_file_fragment
    rw [hsoup, if_neg (by simp [hpe])]
  · intro hfe hpe
    unfold LinkChecker._test_link
    rw [hmiss, if_neg hbase, if_neg (by simp), if_neg (by simp [hfe]), hpe]
  · intro s'
    unfold LinkChecker._test_link
    cases hl : lookupA s'.seen_links link with
    | some v => exact ⟨_, rfl⟩
    | none =>
      by_cases hb : lookupA s'.seen_links (urldefrag link).1 = some false
      · rw [if_pos hb]
        exact ⟨_, rfl⟩
      · rw [if_neg hb, if_pos rfl]
        by_cases hf : (urldefrag link).2 ≠ ""
        · rw [if_pos hf]
          exact ⟨_, rfl⟩
        · rw [if_neg hf]
          exact ⟨_, rfl⟩
  · intro ext e he
    unfold LinkChecker._test_link at he
    rw [hmiss, if_neg hbase] at he
    cases ext with
    | true =>
      rw [if_pos rfl] at he
      by_cases hf : (urldefrag link).2 ≠ ""
      · rw [if_pos hf] at he
        exact absurd he (by simp)
      · rw [if_neg hf] at he
        exact absurd he (by simp)
    | false =>
      rw [if_neg (by simp)] at he
      by_cases hf : (urldefrag link).2 ≠ ""
      · rw [if_pos hf] at he
        refine ⟨rfl, hf, ?_⟩
        unfold LinkChecker._test_file_fragment at he
        cases hs2 : lookupA s.soup_mapping (urldefrag link).1 with
        | some soup =>
          rw [hs2] at he
          exact absurd he (by simp)
        | none =>
          rw [hs2] at he
          by_cases hex : env.pathExists (urldefrag link).1 = true
          · rw [if_pos hex] at he
            cases hr : env.readFile (urldefrag link).1 with
            | error msg =>
              rw [hr] at he
              simp only [Except.error.injEq] at he
              exact ⟨hex, rfl, msg, he.symm, rfl⟩
            | ok soup =>
              rw [hr] at he
              exact absurd he (by simp)
          · rw [if_neg hex] at he
            exact absurd he (by simp)
      · rw [if_neg hf] at he
        exact absurd he (by simp)

/-- C6 witness: against a transport that raises on every request, a HEAD
exception converts to False, the fragmentless remote target and the
fragmented remote target both resolve to False, and a missing local file
resolves to False with a stat and no read. -/
theorem c6_witness :
    test_http_head envNetErr "http://u" = false ∧
    LinkChecker._test_link envNetErr s0 "http://u" true =
      Except.ok (false, LinkChecker.writeSeen s0 "http://u" false, [Probe.head "http://u"]) ∧
    LinkChecker._test_link envNetErr s0 "http://u#f" true =
      Except.ok (false, LinkChecker.writeSeen s0 "http://u#f" false, [Probe.get "http://u"]) ∧
    LinkChecker._test_link envNetErr s0 "m#f" false =
      Except.ok (false, LinkChecker.writeSeen s0 "m#f" false, [Probe.stat "m"]) :=
  ⟨(c6_error_absorption_amended envNetErr s0 "http://u" (by decide) (by decide)).1
      "timeout" rfl,
   (c6_error_absorption_amended envNetErr s0 "http://u" (by decide) (by decide)).2.1
      rfl (by decide),
   (c6_error_absorption_amended envNetErr s0 "http://u#f" (by decide) (by decide)).2.2.1
      (by decide) rfl (Or.inl ⟨"timeout", rfl⟩),
   (c6_error_absorption_amended envNetErr s0 "m#f" (by decide) (by decide)).2.2.2.1
      (by decide) rfl rfl⟩

/-- C7: Ignore-pattern exclusion: a link matched by a configured ignore
pattern makes test_link return True with an unchanged state and an empty
probe log: nothing is probed, neither counter moves, and the fail map does
not record the target, whatever its actual reachability. -/
theorem c7_ignore_exclusion (env : Env) (s : CheckerState) (link ctx : String)
    (h : s.ignores.any (fun rex => rex link) = true) :
    LinkChecker.test_link env s link ctx = Except.ok (some true, s, []) := by
  unfold LinkChecker.test_link
  by_cases g1 : (hasScheme link && !s.test_external) = true
  · rw [if_pos g1]
  · rw [if_neg g1]
    by_cases g2 : (!(hasScheme link) && !s.test_local) = true
    · rw [if_pos g2]
    · rw [if_neg g2, if_pos h]

/-- C7 witness: a catch-all ignore pattern excludes dead.html from checking
even in an environment where every read raises. -/
theorem c7_witness :
    LinkChecker.test_link envUnreadable sIgn "dead.html" "src.html" =
      Except.ok (some true, sIgn, []) :=
  c7_ignore_exclusion envUnreadable sIgn "dead.html" "src.html" rfl

/-- C8 counterexample: with a dead base X, checking X#a and then X#b issues
a GET for X both times: the resolution cache keys the full target string, so
a later check of the same dead resource under a different fragment re-attempts
the load. -/
theorem c8_counterexample :
    LinkChecker._test_link envDeadGet s0 "X#a" true =
      Except.ok (false, LinkChecker.writeSeen s0 "X#a" false, [Probe.get "X"]) ∧
    LinkChecker._test_link envDeadGet (LinkChecker.writeSeen s0 "X#a" false) "X#b" true =
      Except.ok (false,
        LinkChecker.writeSeen (LinkChecker.writeSeen s0 "X#a" false) "X#b" false,
        [Probe.get "X"]) := ⟨rfl, rfl⟩

/-- C8 amended: when a fragment check fails because the base document cannot
be loaded (remote: GET error or non-success status; local: missing file),
the document is not inserted into the soup cache, the check resolves to
False and caches the full target as False, and a subsequent check of the
identical target string returns False without any probe; re-attempts are
prevented only for the identical target string (a different fragment on the
same dead base probes again, as the counterexample shows). -/
theorem c8_failed_load_amended (env : Env) (s : CheckerState) (link : String) (ext : Bool)
    (hfrag : (urldefrag link).2 ≠ "")
    (hmiss : lookupA s.seen_links link = none)
    (hbase : ¬ lookupA s.seen_links (urldefrag link).1 = some false)
    (hsoup : lookupA s.soup_mapping (urldefrag link).1 = none)
    (hfail : (ext = true ∧ loadFailR env (urldefrag link).1) ∨
      (ext = false ∧ env.pathExists (urldefrag link).1 = false)) :
    LinkChecker._test_link env s link ext =
      Except.ok (false, LinkChecker.writeSeen s link false,
        [if ext then Probe.get (urldefrag link).1 else Probe.stat (urldefrag link).1]) ∧
    (LinkChecker.writeSeen s link false).soup_mapping = s.soup_mapping ∧
    LinkChecker._test_link env (LinkChecker.writeSeen s link false) link ext =
      Except.ok (false, LinkChecker.writeSeen s link false, []) := by
  refine ⟨?_, rfl, ?_⟩
  · unfold LinkChecker._test_link
    rw [hmiss, if_neg hbase]
    rcases hfail with ⟨hext, hlf⟩ | ⟨hext, hpe⟩
    · subst hext
      rw [if_pos rfl, if_pos hfrag]
      unfold LinkChecker._test_http_fragment
      rw [hsoup]
      rcases hlf with ⟨e, hge⟩ | ⟨soup, hgo⟩
      · rw [hge]
        simp
      · rw [hgo]
        simp
    · subst hext
      rw [if_neg (by simp), if_pos hfrag]
      unfold LinkChecker._test_file_fragment
      rw [hsoup, if_neg (by simp [hpe])]
      simp
  · exact ttl_of_cached (by simp [LinkChecker.writeSeen, lookupA_insertA])

/-- C8 witness: the amended statement at the concrete dead remote base X. -/
theorem c8_witness :
    LinkChecker._test_link envDeadGet s0 "X#a" true =
      Except.ok (false, LinkChecker.writeSeen s0 "X#a" false, [Probe.get "X"]) ∧
    (LinkChecker.writeSeen s0 "X#a" false).soup_mapping = s0.soup_mapping ∧
    LinkChecker._test_link envDeadGet (LinkChecker.writeSeen s0 "X#a" false) "X#a" true =
      Except.ok (false, LinkChecker.writeSeen s0 "X#a" false, []) :=
  c8_failed_load_amended envDeadGet s0 "X#a" true (by decide) (by decide) (by decide)
    rfl (Or.inl ⟨rfl, Or.inr ⟨soup0, rfl⟩⟩)

/-- C9 counterexample: scanning the one bare item http://h#frag records the
failure under the defragmented string http://h, not under the full item
string, refuting that the FailureMap key equals the item itself. -/
theorem c9_counterexample :
    LinkChecker.test_items envDeadGet uj0 rp0 s0 ["http://h#frag"] =
      Except.ok (st9, [Probe.get "http://h"]) ∧
    st9.fail_map = [("http://h", ["http://h#frag"])] ∧
    ("http://h" : String) ≠ "http://h#frag" := ⟨rfl, rfl, by decide⟩

/-- C9 amended: a scan item that is neither a directory nor a file but
carries a URL scheme is verified as a single remote target by one test_link
call whose target is the full item string and whose FailureMap context is
the defragmented item string, so any failure is recorded under the item with
its fragment stripped (which coincides with the item itself exactly when the
item has no fragment). -/
theorem c9_bare_url_amended (env : Env) (urljoin : String → String → String)
    (realpath : String → String) (s : CheckerState) (item : String)
    (hd : env.isDir item = false) (hf : env.isFile item = false)
    (hs : hasScheme item = true) :
    (∀ e, LinkChecker.test_link env s item (urldefrag item).1 = Except.error e →
      LinkChecker.test_items env urljoin realpath s [item] = Except.error e) ∧
    (∀ v s' ps, LinkChecker.test_link env s item (urldefrag item).1 = Except.ok (v, s', ps) →
      LinkChecker.test_items env urljoin realpath s [item] = Except.ok (s', ps)) := by
  constructor
  · intro e he
    unfold LinkChecker.test_items
    rw [if_neg (by simp [hd]), if_neg (by simp [hf]), if_pos hs, he]
  · intro v s' ps hok
    unfold LinkChecker.test_items
    rw [if_neg (by simp [hd]), if_neg (by simp [hf]), if_pos hs, hok]
    unfold LinkChecker.test_items
    simp

/-- The one test_link call performed for the bare item http://h#frag. -/
theorem c9_first_call :
    LinkChecker.test_link envDeadGet s0 "http://h#frag" (urldefrag "http://h#frag").1 =
      Except.ok (none, st9, [Probe.get "http://h"]) := rfl

/-- C9 witness: the amended statement at the concrete bare item. -/
theorem c9_witness :
    LinkChecker.test_items envDeadGet uj0 rp0 s0 ["http://h#frag"] =
      Except.ok (st9, [Probe.get "http://h"]) :=
  (c9_bare_url_amended envDeadGet uj0 rp0 s0 "http://h#frag" rfl rfl (by decide)).2
    none st9 [Probe.get "http://h"] c9_first_call

/-- C10: Empty-fragment edge: a target X# whose fragment part is empty is
treated as fragmentless, and the probe (HEAD when remote, stat when local)
is performed on the full original string including the trailing hash sign,
not on the defragmented base X. -/
theorem c10_empty_fragment (env : Env) (s : CheckerState) (X : String) (ext : Bool)
    (hhash : '#' ∉ X.data)
    (hmiss : lookupA s.seen_links (X ++ "#") = none)
    (hbase : ¬ lookupA s.seen_links X = some false) :
    LinkChecker._test_link env s (X ++ "#") ext =
      Except.ok
        ((if ext then test_http_head env (X ++ "#") else env.pathExists (X ++ "#")),
          LinkChecker.writeSeen s (X ++ "#")
            (if ext then test_http_head env (X ++ "#") else env.pathExists (X ++ "#")),
          [if ext then Probe.head (X ++ "#") else Probe.stat (X ++ "#")]) := by
  have hdf := urldefrag_append_hash X hhash
  unfold LinkChecker._test_link
  rw [hmiss, hdf]
  rw [if_neg hbase]
  cases ext with
  | true =>
    rw [if_pos rfl, if_neg (by simp)]
    simp
  | false =>
    rw [if_neg (by simp), if_neg (by simp)]
    simp

/-- C10 witness: f.html exists while f.html# does not, so the local check of
f.html# stats the full string with the trailing hash sign and resolves to
False even though the defragmented base exists. -/
theorem c10_witness :
    envHtml.pathExists "f.html" = true ∧
    LinkChecker._test_link envHtml s0 ("f.html" ++ "#") false =
      Except.ok (false, LinkChecker.writeSeen s0 ("f.html" ++ "#") false,
        [Probe.stat ("f.html" ++ "#")]) :=
  ⟨rfl, c10_empty_fragment envHtml s0 "f.html" false (by decide) (by decide) (by decide)⟩
